import Mathlib

/-!
Shallow embedding of `src/bot.py` from the digtor repository: the attraction
data model, the JSON catalog loader, and the navigation handlers that manage
the per-chat ephemeral photo slot.  Python floats appear only through their
decimal renderings (f-string interpolation), so coordinates are carried as
those rendering strings.  Transport calls are recorded as effects; a delete
attempt records whether the transport succeeded (the handler swallows the
failure either way) and a photo send either succeeds with a fresh message id
or raises, in which case the handler body stops (as the exception would
propagate past the assignment that follows the send).
-/

namespace Digtor

/-- Attraction record (`@dataclass(frozen=True) class Attraction`).  The source
stores `latitude` and `longitude` as Python floats; every use site consumes
only their decimal rendering inside an f-string, so the embedding carries that
rendering as a string. -/
structure Attraction where
  identifier : String
  name : String
  description : String
  address : String
  latitude : String
  longitude : String
  image_url : String
  deriving DecidableEq

/-- Map link property: the source builds
"https://yandex.ru/maps/?" f"pt={lon},{lat}&z=16&l=map" from two adjacent
string literals (concatenated at compile time in Python). -/
def Attraction.map_link (a : Attraction) : String :=
  "https://yandex.ru/maps/?" ++ "pt=" ++ a.longitude ++ "," ++ a.latitude ++ "&z=16&l=map"

/-- Route link property: "https://yandex.ru/maps/?" f"rtext=~{lat}%2C{lon}&rtt=auto". -/
def Attraction.route_link (a : Attraction) : String :=
  "https://yandex.ru/maps/?" ++ "rtext=~" ++ a.latitude ++ "%2C" ++ a.longitude ++ "&rtt=auto"

/-- JSON values as produced by `json.load`.  Numeric literals are carried as
their rendering text (see the note on floats above).  Nested arrays are never
inspected by the loader and are omitted. -/
inductive JsonVal where
  | jnull
  | jbool (b : Bool)
  | jnum (s : String)
  | jstr (s : String)
  | jobj (fields : List (String × JsonVal))

/-- Errors of the loader: `FileNotFoundError` (the spec's NotFoundError) and
the KeyError/TypeError/ValueError family raised during record validation (the
spec's ValidationError). -/
inductive LoadError where
  | notFound (path : String)
  | validation (msg : String)

/-- First binding of a key in a JSON object (objects from `json.load` carry
each key once). -/
def jlookup : List (String × JsonVal) → String → Option JsonVal
  | [], _ => none
  | (k, v) :: rest, key => if k = key then some v else jlookup rest key

/-- Python subscription `item[key]`: KeyError when the key is absent,
TypeError when the value is not an object; both are validation failures. -/
def getItem (v : JsonVal) (key : String) : Except LoadError JsonVal :=
  match v with
  | .jobj fields =>
    match jlookup fields key with
    | some w => .ok w
    | none => .error (.validation ("KeyError: " ++ key))
  | _ => .error (.validation ("TypeError: not subscriptable at " ++ key))

/-- Digit-sequence shape of a decimal numeral body: digits, optionally a dot
with digits on at least one side. -/
def numericBody (cs : List Char) : Bool :=
  let intPart := cs.takeWhile (fun c => c.isDigit)
  let rest := cs.dropWhile (fun c => c.isDigit)
  match rest with
  | [] => !intPart.isEmpty
  | c :: frac =>
    c = '.' && frac.all (fun d => d.isDigit) && (!intPart.isEmpty || !frac.isEmpty)

/-- Surrounding-whitespace strip, as Python `float()` applies to string
input. -/
def pyStrip (s : String) : String :=
  String.mk (((s.data.dropWhile (fun c => c.isWhitespace)).reverse.dropWhile
    (fun c => c.isWhitespace)).reverse)

/-- Decimal-numeral test modelling the strings accepted by Python `float()`
(common decimal subset: optional sign, digits with an optional fractional
part; surrounding whitespace is stripped as `float` does). -/
def isNumericStr (s : String) : Bool :=
  match (pyStrip s).data with
  | '-' :: rest => numericBody rest
  | '+' :: rest => numericBody rest
  | cs => numericBody cs

/-- Python `float(x)` applied to a JSON value, returning the decimal rendering
of the resulting float: numbers pass through (payload numerals are taken in
canonical rendering), numeric strings are accepted after stripping, and every
other value raises (TypeError / ValueError), a validation failure. -/
def pyFloatRepr (v : JsonVal) : Except LoadError String :=
  match v with
  | .jnum s => .ok s
  | .jstr s => if isNumericStr s then .ok (pyStrip s) else .error (.validation ("ValueError: " ++ s))
  | _ => .error (.validation "TypeError: float() argument")

/-- Rendering of a JSON value stored unchecked into a string field of
`Attraction` (the source assigns `item["name"]` etc. without coercion; the
documented payload format makes these JSON strings). -/
def jsonToStr : JsonVal → String
  | .jstr s => s
  | .jnum s => s
  | _ => ""

/-- One record of the payload turned into an `Attraction`, mirroring the
keyword arguments of the comprehension in `from_json` in source order; the
first failing subscription or `float()` call raises. -/
def parseAttraction (item : JsonVal) : Except LoadError Attraction :=
  match getItem item "id" with
  | .error e => .error e
  | .ok idV =>
  match getItem item "name" with
  | .error e => .error e
  | .ok nameV =>
  match getItem item "description" with
  | .error e => .error e
  | .ok descV =>
  match getItem item "address" with
  | .error e => .error e
  | .ok addrV =>
  match getItem item "coordinates" with
  | .error e => .error e
  | .ok coords1 =>
  match getItem coords1 "lat" with
  | .error e => .error e
  | .ok latV =>
  match pyFloatRepr latV with
  | .error e => .error e
  | .ok lat =>
  match getItem item "coordinates" with
  | .error e => .error e
  | .ok coords2 =>
  match getItem coords2 "lon" with
  | .error e => .error e
  | .ok lonV =>
  match pyFloatRepr lonV with
  | .error e => .error e
  | .ok lon =>
  match getItem item "image_url" with
  | .error e => .error e
  | .ok imgV =>
    .ok { identifier := jsonToStr idV, name := jsonToStr nameV,
          description := jsonToStr descV, address := jsonToStr addrV,
          latitude := lat, longitude := lon, image_url := jsonToStr imgV }

/-- The list comprehension of `from_json`: records are parsed left to right
and the first failure aborts the whole load (all-or-nothing). -/
def parseAll : List JsonVal → Except LoadError (List Attraction)
  | [] => .ok []
  | item :: rest =>
    match parseAttraction item with
    | .error e => .error e
    | .ok a =>
      match parseAll rest with
      | .error e => .error e
      | .ok as => .ok (a :: as)

/-- First binding of an identifier in the storage dictionary (keys are unique
by construction, so first = only). -/
def lookupDict : List (String × Attraction) → String → Option Attraction
  | [], _ => none
  | (k, v) :: rest, key => if k = key then some v else lookupDict rest key

/-- Python dict assignment `d[k] = v`: an existing key keeps its insertion
position and receives the new value; a new key is appended. -/
def dictInsert (d : List (String × Attraction)) (k : String) (v : Attraction) :
    List (String × Attraction) :=
  if d.any (fun p => p.1 = k) then
    d.map (fun p => if p.1 = k then (k, v) else p)
  else
    d ++ [(k, v)]

/-- The dict comprehension of `AttractionStorage.__init__`:
left-to-right insertion of `item.identifier : item`. -/
def pyDict (items : List Attraction) : List (String × Attraction) :=
  items.foldl (fun d item => dictInsert d item.identifier item) []

/-- Storage over the identifier-keyed dictionary `self._items`. -/
structure AttractionStorage where
  itemsDict : List (String × Attraction)

/-- The constructor `AttractionStorage(items)`. -/
def mkStorage (items : List Attraction) : AttractionStorage :=
  ⟨pyDict items⟩

/-- Method `all()`: `list(self._items.values())` in dictionary order. -/
def AttractionStorage.all (s : AttractionStorage) : List Attraction :=
  s.itemsDict.map (fun p => p.2)

/-- Method `get(identifier)`: `self._items.get(identifier)`; absence is a
normal `none`, never an exception. -/
def AttractionStorage.get (s : AttractionStorage) (identifier : String) : Option Attraction :=
  lookupDict s.itemsDict identifier

/-- Classmethod `from_json`: a missing path raises FileNotFoundError before
anything is parsed (the file-system check is passed in as the boolean result
of `path.exists()`, and the parsed JSON payload stands for the file
contents); otherwise the comprehension builds every record and the
constructor builds the dictionary. -/
def from_json (pathExists : Bool) (path : String) (payload : List JsonVal) :
    Except LoadError AttractionStorage :=
  if pathExists = false then
    .error (.notFound path)
  else
    match parseAll payload with
    | .error e => .error e
    | .ok attractions => .ok (mkStorage attractions)

/-- Inline keyboard button: either a callback button or an url button. -/
inductive Button where
  | callbackBtn (text : String) (callback_data : String)
  | urlBtn (text : String) (url : String)
  deriving DecidableEq

/-- Inline keyboard markup: rows of buttons. -/
abbrev Keyboard := List (List Button)

/-- Function `build_main_menu_keyboard`. -/
def build_main_menu_keyboard : Keyboard :=
  [[Button.callbackBtn "📍 Достопримечательности" "menu:attractions"],
   [Button.callbackBtn "ℹ️ Советы по использованию" "menu:help"]]

/-- Function `build_attractions_keyboard`: one row per attraction plus the
back-to-menu row. -/
def build_attractions_keyboard (attractions : List Attraction) : Keyboard :=
  (attractions.map fun item =>
    [Button.callbackBtn item.name ("attraction:" ++ item.identifier)])
  ++ [[Button.callbackBtn "⬅️ Назад в меню" "menu:main"]]

/-- Characters of a string after its first colon; Python
`s.partition(":")[2]`, which is the empty string when no colon occurs. -/
def afterColonL : List Char → List Char
  | [] => []
  | c :: cs => if c = ':' then cs else afterColonL cs

/-- String wrapper for `afterColonL`: the third component of
`query.data.partition(":")`. -/
def afterFirstColon (s : String) : String :=
  String.mk (afterColonL s.data)

/-- Character-list test that the second list begins with the first. -/
def leadsWithL : List Char → List Char → Bool
  | [], _ => true
  | _ :: _, [] => false
  | p :: ps, c :: cs => p == c && leadsWithL ps cs

/-- String test used to model the `^menu:` and `^attraction:` handler
patterns of `build_application`. -/
def leadsWith (p s : String) : Bool :=
  leadsWithL p.data s.data

/-- Per-chat mutable state of the controller: the single
`context.user_data["photo_message_id"]` slot. -/
structure ChatState where
  photoMessageId : Option Nat
  deriving DecidableEq

/-- Outcomes the transport environment supplies during one action:
whether `delete_message` succeeds (a failure raises `TelegramError`, which the
cleanup swallows), whether `send_photo` succeeds, and the message id the
transport assigns to a successfully sent photo. -/
structure Env where
  deleteOk : Bool
  sendPhotoOk : Bool
  photoMsgId : Nat
  deriving DecidableEq

/-- Observable transport effects of a handler, in program order.  A delete
attempt records the transport outcome (swallowed by the caller either way);
a photo send records `some id` on success and `none` when the transport
raised (aborting the handler after this point). -/
inductive Effect where
  | answer
  | deleteAttempt (chatId : Nat) (messageId : Nat) (ok : Bool)
  | editText (text : String) (markup : Option Keyboard)
  | replyText (chatId : Nat) (text : String) (markup : Option Keyboard)
  | sendPhotoMsg (chatId : Nat) (photo : String) (caption : String) (result : Option Nat)
  deriving DecidableEq

/-- Callback query of an update: optional payload `data` and the chat of the
message the query is attached to, when that message is accessible. -/
structure CallbackQuery where
  data : Option String
  messageChat : Option Nat
  deriving DecidableEq

/-- Incoming update: chat of `update.message` for command updates, first name
of `update.effective_user`, and the callback query when present. -/
structure Update where
  messageChat : Option Nat
  userFirstName : Option String
  callback : Option CallbackQuery
  deriving DecidableEq

/-- Python-telegram-bot `update.effective_chat`: the chat of the message,
else the chat of the callback query's message. -/
def Update.effectiveChat (u : Update) : Option Nat :=
  match u.messageChat with
  | some c => some c
  | none =>
    match u.callback with
    | some q => q.messageChat
    | none => none

/-- Whether `update.callback_query and update.callback_query.message` holds. -/
def Update.hasCallbackMessage (u : Update) : Bool :=
  match u.callback with
  | some q => q.messageChat.isSome
  | none => false

/-- Greeting text of `send_main_menu` after `.format(name=...)`. -/
def mainMenuText (name : String) : String :=
  "Здравствуйте, " ++ name ++ "! Я виртуальный гид проекта «Цифровой Торжокъ».\n"
  ++ "С моей помощью вы узнаете историю главных достопримечательностей и сразу получите ссылки на карты.\n"
  ++ "Выберите раздел на кнопках ниже, чтобы начать путешествие по городу."

/-- Help text of the `/help` command handler. -/
def helpCommandText : String :=
  "Чтобы познакомиться с Торжком, используйте кнопки главного меню.\n"
  ++ "Кнопка «Достопримечательности» покажет список объектов с маршрутами, а «Советы по использованию» — подсказки по работе с ботом.\n"
  ++ "Если вы хотите вернуться к началу, просто нажмите «Назад в меню»."

/-- Help text of the `menu:help` branch of `handle_menu`. -/
def menuHelpText : String :=
  "Используйте кнопки для навигации по боту.\n"
  ++ "В разделе «Достопримечательности» можно открыть карту и построить маршрут.\n"
  ++ "Возвращайтесь в меню, чтобы выбрать новый объект или прочитать подсказки ещё раз."

/-- Notice shown by `show_attractions` when the catalog is empty. -/
def emptyListText : String :=
  "Извините, список достопримечательностей пока пуст. Попробуйте позже."

/-- Prompt shown above the attraction list. -/
def chooseText : String :=
  "Выберите достопримечательность, чтобы узнать подробности и увидеть фотографию:"

/-- Notice shown by `attraction_details` on a lookup miss. -/
def notFoundText : String :=
  "К сожалению, не удалось найти информацию об этой достопримечательности."

/-- Detail text: `"\n".join(message_lines)` over the six lines built in
`attraction_details`. -/
def detailText (a : Attraction) : String :=
  String.intercalate "\n"
    ["<b>" ++ a.name ++ "</b>",
     "Адрес: " ++ a.address,
     "",
     a.description,
     "",
     "Выберите действие на кнопках ниже:"]

/-- Detail keyboard: map url, route url, back-to-list callback. -/
def detailKeyboard (a : Attraction) : Keyboard :=
  [[Button.urlBtn "🗺 Открыть на карте" a.map_link],
   [Button.urlBtn "🚗 Маршрут на Яндекс.Картах" a.route_link],
   [Button.callbackBtn "⬅️ Назад к списку" "menu:attractions"]]

/-- Coroutine `delete_previous_photo`: pops the slot unconditionally, returns
without a transport call when the popped value is falsy (absent slot, or the
falsy id 0), otherwise attempts the delete and swallows a `TelegramError`. -/
def delete_previous_photo (env : Env) (chatId : Nat) (st : ChatState) :
    ChatState × List Effect :=
  match st.photoMessageId with
  | none => (⟨none⟩, [])
  | some m =>
    if m = 0 then (⟨none⟩, [])
    else (⟨none⟩, [Effect.deleteAttempt chatId m env.deleteOk])

/-- Coroutine `send_main_menu`: clear the tracked photo for the effective
chat, then edit the callback message (when invoked via callback) or reply to
the command message. -/
def send_main_menu (env : Env) (u : Update) (viaCallback : Bool) (st : ChatState) :
    ChatState × List Effect :=
  let text := mainMenuText (u.userFirstName.getD "")
  let del :=
    match u.effectiveChat with
    | some cid => delete_previous_photo env cid st
    | none => (st, [])
  if viaCallback && u.callback.isSome then
    (del.1, del.2 ++ [Effect.editText text (some build_main_menu_keyboard)])
  else
    match u.messageChat with
    | some cid => (del.1, del.2 ++ [Effect.replyText cid text (some build_main_menu_keyboard)])
    | none => (del.1, del.2)

/-- Handler of the `/start` command. -/
def start (env : Env) (u : Update) (st : ChatState) : ChatState × List Effect :=
  send_main_menu env u false st

/-- Handler `help_command` of the `/help` command: only acts on message
updates; clears the tracked photo, then replies with the help text and the
main-menu keyboard. -/
def help_command (env : Env) (u : Update) (st : ChatState) : ChatState × List Effect :=
  match u.messageChat with
  | none => (st, [])
  | some cid =>
    let del :=
      match u.effectiveChat with
      | some c => delete_previous_photo env c st
      | none => (st, [])
    (del.1, del.2 ++ [Effect.replyText cid helpCommandText (some build_main_menu_keyboard)])

/-- Handler `show_attractions`: on an empty catalog, render the notice and
return at once (no photo cleanup on this path); otherwise clear the tracked
photo for the effective chat and render the list keyboard by editing the
callback message or replying to the command message. -/
def show_attractions (env : Env) (storage : AttractionStorage) (u : Update)
    (st : ChatState) : ChatState × List Effect :=
  let attractions := storage.all
  if attractions.isEmpty then
    if u.hasCallbackMessage then
      (st, [Effect.editText emptyListText none])
    else
      match u.messageChat with
      | some cid => (st, [Effect.replyText cid emptyListText none])
      | none => (st, [])
  else
    let markup := build_attractions_keyboard attractions
    let del :=
      match u.effectiveChat with
      | some cid => delete_previous_photo env cid st
      | none => (st, [])
    if u.hasCallbackMessage then
      (del.1, del.2 ++ [Effect.editText chooseText (some markup)])
    else
      match u.messageChat with
      | some cid => (del.1, del.2 ++ [Effect.replyText cid chooseText (some markup)])
      | none => (del.1, del.2)

/-- Handler `attraction_details`: empty query or missing data returns
silently; a lookup miss renders the not-found notice and leaves the state
untouched; otherwise the detail text is rendered, the previous photo is
cleared, the new photo is sent, and only a successful send assigns the slot
(the exception of a failed send propagates past the assignment). -/
def attraction_details (env : Env) (storage : AttractionStorage) (u : Update)
    (st : ChatState) : ChatState × List Effect :=
  match u.callback with
  | none => (st, [])
  | some q =>
    match q.data with
    | none => (st, [])
    | some d =>
      let identifier := afterFirstColon d
      match storage.get identifier with
      | none => (st, [Effect.answer, Effect.editText notFoundText none])
      | some attraction =>
        let effs := [Effect.answer,
          Effect.editText (detailText attraction) (some (detailKeyboard attraction))]
        match q.messageChat with
        | none => (st, effs)
        | some cid =>
          let del := delete_previous_photo env cid st
          if env.sendPhotoOk then
            (⟨some env.photoMsgId⟩,
             effs ++ del.2
               ++ [Effect.sendPhotoMsg cid attraction.image_url attraction.name
                     (some env.photoMsgId)])
          else
            (del.1,
             effs ++ del.2
               ++ [Effect.sendPhotoMsg cid attraction.image_url attraction.name none])

/-- Handler `handle_menu`: empty query or missing data returns silently;
otherwise the press is acknowledged and dispatched on the text after the
colon; an unknown action falls through with no further effect. -/
def handle_menu (env : Env) (storage : AttractionStorage) (u : Update)
    (st : ChatState) : ChatState × List Effect :=
  match u.callback with
  | none => (st, [])
  | some q =>
    match q.data with
    | none => (st, [])
    | some d =>
      let action := afterFirstColon d
      if action = "main" then
        let del :=
          match q.messageChat with
          | some cid => delete_previous_photo env cid st
          | none => (st, [])
        let r := send_main_menu env u true del.1
        (r.1, Effect.answer :: (del.2 ++ r.2))
      else if action = "attractions" then
        let r := show_attractions env storage u st
        (r.1, Effect.answer :: r.2)
      else if action = "help" then
        let del :=
          match q.messageChat with
          | some cid => delete_previous_photo env cid st
          | none => (st, [])
        (del.1, Effect.answer ::
          (del.2 ++ [Effect.editText menuHelpText (some build_main_menu_keyboard)]))
      else
        (st, [Effect.answer])

/-- User actions the application dispatches: the three commands and a
callback button press carrying its payload string. -/
inductive Action where
  | cmdStart (chatId : Nat) (firstName : Option String)
  | cmdHelp (chatId : Nat) (firstName : Option String)
  | cmdAttractions (chatId : Nat) (firstName : Option String)
  | callbackPress (chatId : Nat) (firstName : Option String) (data : String)

/-- Update carried by a command message in a chat. -/
def commandUpdate (chatId : Nat) (firstName : Option String) : Update :=
  { messageChat := some chatId, userFirstName := firstName, callback := none }

/-- Update carried by a callback button press whose message is accessible. -/
def callbackUpdate (chatId : Nat) (firstName : Option String) (data : String) : Update :=
  { messageChat := none, userFirstName := firstName,
    callback := some { data := some data, messageChat := some chatId } }

/-- Dispatch of `build_application`: `/start`, `/help`, `/attractions`
command handlers, `^menu:` to `handle_menu`, `^attraction:` to
`attraction_details`, any other callback unhandled. -/
def step (env : Env) (storage : AttractionStorage) (st : ChatState) :
    Action → ChatState × List Effect
  | .cmdStart cid fn => start env (commandUpdate cid fn) st
  | .cmdHelp cid fn => help_command env (commandUpdate cid fn) st
  | .cmdAttractions cid fn => show_attractions env storage (commandUpdate cid fn) st
  | .callbackPress cid fn d =>
    if leadsWith "menu:" d then handle_menu env storage (callbackUpdate cid fn d) st
    else if leadsWith "attraction:" d then
      attraction_details env storage (callbackUpdate cid fn d) st
    else (st, [])

/-- A whole session: the chat state threaded through a sequence of actions,
each paired with the transport outcomes of its turn. -/
def run (storage : AttractionStorage) (acts : List (Env × Action))
    (st : ChatState) : ChatState :=
  acts.foldl (fun s p => (step p.1 storage s p.2).1) st

/-- Removing a leading pattern from a character list, when it is there. -/
def chopLead : List Char → List Char → Option (List Char)
  | [], s => some s
  | _ :: _, [] => none
  | p :: ps, c :: cs => if c = p then chopLead ps cs else none

/-- Split of a character list at the first occurrence of a separator. -/
def breakAtChar (sep : Char) : List Char → Option (List Char × List Char)
  | [] => none
  | c :: cs =>
    if c = sep then some ([], cs)
    else (breakAtChar sep cs).map (fun p => (c :: p.1, p.2))

/-- Spec round-trip reading of a map link: recover (longitude, latitude) from
the fixed query shape of `Attraction.map_link`. -/
def parseMapLink (s : String) : Option (String × String) :=
  match chopLead "https://yandex.ru/maps/?pt=".data s.data with
  | none => none
  | some rest =>
    match breakAtChar ',' rest with
    | none => none
    | some (lonC, rest2) =>
      match breakAtChar '&' rest2 with
      | none => none
      | some (latC, rest3) =>
        if rest3 = "z=16&l=map".data then some (String.mk lonC, String.mk latC)
        else none

/-- Spec round-trip reading of a route link: recover (latitude, longitude)
from the fixed query shape of `Attraction.route_link`. -/
def parseRouteLink (s : String) : Option (String × String) :=
  match chopLead "https://yandex.ru/maps/?rtext=~".data s.data with
  | none => none
  | some rest =>
    match breakAtChar '%' rest with
    | none => none
    | some (latC, rest2) =>
      match chopLead "2C".data rest2 with
      | none => none
      | some rest3 =>
        match breakAtChar '&' rest3 with
        | none => none
        | some (lonC, rest4) =>
          if rest4 = "rtt=auto".data then some (String.mk latC, String.mk lonC)
          else none

/-- Whether an effect is an ephemeral-photo delete attempt. -/
def isDeleteEff : Effect → Bool
  | .deleteAttempt _ _ _ => true
  | _ => false

/-- Whether an effect renders a screen (edits or sends a text message). -/
def isRenderEff : Effect → Bool
  | .editText _ _ => true
  | .replyText _ _ _ => true
  | _ => false

/-- Whether an effect sends a photo. -/
def isPhotoEff : Effect → Bool
  | .sendPhotoMsg _ _ _ _ => true
  | _ => false

/-- A delete attempt occurs strictly before a render effect in the effect
trace. -/
def delBeforeRender (l : List Effect) : Prop :=
  ∃ l1 d l2 r l3, l = l1 ++ d :: (l2 ++ r :: l3)
    ∧ isDeleteEff d = true ∧ isRenderEff r = true

/-- Per-entry actions of a keyboard: label and target of every callback
button whose target addresses an attraction. -/
def entryButtons (kb : Keyboard) : List (String × String) :=
  kb.flatten.filterMap fun b =>
    match b with
    | .callbackBtn t d => if leadsWith "attraction:" d then some (t, d) else none
    | _ => none

/-- Back-to-main-menu buttons of a keyboard. -/
def backButtons (kb : Keyboard) : List Button :=
  kb.flatten.filter fun b =>
    match b with
    | .callbackBtn _ d => d = "menu:main"
    | _ => false

lemma chopLead_append (p s : List Char) : chopLead p (p ++ s) = some s := by
  induction p with
  | nil => rfl
  | cons c cs ih => simp [chopLead, ih]

lemma breakAtChar_append (sep : Char) (xs ys : List Char) (h : sep ∉ xs) :
    breakAtChar sep (xs ++ sep :: ys) = some (xs, ys) := by
  induction xs with
  | nil => simp [breakAtChar]
  | cons c cs ih =>
    have hc : c ≠ sep := fun hcs => h (hcs ▸ List.mem_cons_self c cs)
    have hm : sep ∉ cs := fun hin => h (List.mem_cons_of_mem c hin)
    simp [breakAtChar, hc, ih hm]

lemma leadsWithL_append (p s : List Char) : leadsWithL p (p ++ s) = true := by
  induction p with
  | nil => rfl
  | cons c cs ih => simp [leadsWithL, ih]

lemma leadsWith_append_self (p s : String) : leadsWith p (p ++ s) = true := by
  unfold leadsWith
  rw [String.data_append]
  exact leadsWithL_append p.data s.data

lemma attraction_data_ne_menu_main (s : String) :
    ("attraction:" ++ s) = "menu:main" → False := by
  intro h
  have h2 : ("attraction:" ++ s).data = "menu:main".data := congrArg String.data h
  rw [String.data_append] at h2
  have h3 : 'a' :: ("ttraction:".data ++ s.data) = 'm' :: "enu:main".data := h2
  injection h3 with hc _
  exact absurd hc (by decide)

lemma map_link_data (a : Attraction) :
    a.map_link.data = "https://yandex.ru/maps/?pt=".data
      ++ (a.longitude.data ++ (',' :: (a.latitude.data
      ++ ('&' :: "z=16&l=map".data)))) := by
  have c0 : "https://yandex.ru/maps/?".data ++ "pt=".data
      = "https://yandex.ru/maps/?pt=".data := by decide
  have c1 : (",".data : List Char) = [','] := by decide
  have c2 : ("&z=16&l=map".data : List Char) = '&' :: "z=16&l=map".data := by decide
  unfold Attraction.map_link
  simp [String.data_append, List.append_assoc, c1, c2, ← c0]

lemma route_link_data (a : Attraction) :
    a.route_link.data = "https://yandex.ru/maps/?rtext=~".data
      ++ (a.latitude.data ++ ('%' :: ('2' :: 'C' :: (a.longitude.data
      ++ ('&' :: "rtt=auto".data))))) := by
  have c0 : "https://yandex.ru/maps/?".data ++ "rtext=~".data
      = "https://yandex.ru/maps/?rtext=~".data := by decide
  have c1 : ("%2C".data : List Char) = ['%', '2', 'C'] := by decide
  have c2 : ("&rtt=auto".data : List Char) = '&' :: "rtt=auto".data := by decide
  unfold Attraction.route_link
  simp [String.data_append, List.append_assoc, c1, c2, ← c0]

lemma mapLink_roundtrip (a : Attraction) (h1 : ',' ∉ a.longitude.data)
    (h2 : '&' ∉ a.latitude.data) :
    parseMapLink a.map_link = some (a.longitude, a.latitude) := by
  have e0 := map_link_data a
  have e2 := breakAtChar_append ',' a.longitude.data
    (a.latitude.data ++ ('&' :: "z=16&l=map".data)) h1
  have e3 := breakAtChar_append '&' a.latitude.data "z=16&l=map".data h2
  simp at e2 e3
  simp [parseMapLink, e0, chopLead, e2, e3]

lemma routeLink_roundtrip (a : Attraction) (h1 : '%' ∉ a.latitude.data)
    (h2 : '&' ∉ a.longitude.data) :
    parseRouteLink a.route_link = some (a.latitude, a.longitude) := by
  have e0 := route_link_data a
  have e2 := breakAtChar_append '%' a.latitude.data
    ('2' :: 'C' :: (a.longitude.data ++ ('&' :: "rtt=auto".data))) h1
  have e4 := breakAtChar_append '&' a.longitude.data "rtt=auto".data h2
  simp at e2 e4
  simp [parseRouteLink, e0, chopLead, e2, e4]

/-- C6: the map link is exactly the documented Yandex point url, the route
link exactly the documented Yandex route url with a percent-encoded comma;
both are deterministic in (latitude, longitude); and, whenever the
coordinate renderings do not contain the separators of the url shape (true
of every decimal numeral), parsing the link recovers the original
coordinates. -/
theorem mapRouteLinks_spec (a b : Attraction) :
    (a.map_link = "https://yandex.ru/maps/?pt=" ++ a.longitude ++ ","
        ++ a.latitude ++ "&z=16&l=map")
    ∧ (a.route_link = "https://yandex.ru/maps/?rtext=~" ++ a.latitude ++ "%2C"
        ++ a.longitude ++ "&rtt=auto")
    ∧ (a.latitude = b.latitude → a.longitude = b.longitude →
        a.map_link = b.map_link ∧ a.route_link = b.route_link)
    ∧ (',' ∉ a.longitude.data → '&' ∉ a.latitude.data →
        parseMapLink a.map_link = some (a.longitude, a.latitude))
    ∧ ('%' ∉ a.latitude.data → '&' ∉ a.longitude.data →
        parseRouteLink a.route_link = some (a.latitude, a.longitude)) := by
  refine ⟨rfl, rfl, ?_, ?_, ?_⟩
  · intro hlat hlon
    constructor
    · unfold Attraction.map_link
      rw [hlat, hlon]
    · unfold Attraction.route_link
      rw [hlat, hlon]
  · intro h1 h2
    exact mapLink_roundtrip a h1 h2
  · intro h1 h2
    exact routeLink_roundtrip a h1 h2

/-- Kremlin attraction from the spec scenario, used as concrete input. -/
def attKremlin : Attraction :=
  { identifier := "a", name := "Kremlin", description := "Old fortress",
    address := "Torzhok", latitude := "57.04", longitude := "34.96",
    image_url := "https://example.org/kremlin.jpg" }

/-- Witness for C6 at the Kremlin scenario coordinates. -/
theorem mapRouteLinks_spec_witness :
    (',' ∉ attKremlin.longitude.data) ∧ ('&' ∉ attKremlin.latitude.data)
    ∧ ('%' ∉ attKremlin.latitude.data) ∧ ('&' ∉ attKremlin.longitude.data)
    ∧ parseMapLink attKremlin.map_link = some ("34.96", "57.04")
    ∧ parseRouteLink attKremlin.route_link = some ("57.04", "34.96") :=
  ⟨by decide, by decide, by decide, by decide,
   (mapRouteLinks_spec attKremlin attKremlin).2.2.2.1 (by decide) (by decide),
   (mapRouteLinks_spec attKremlin attKremlin).2.2.2.2 (by decide) (by decide)⟩

lemma entryButtons_build (l : List Attraction) :
    entryButtons (build_attractions_keyboard l)
      = l.map fun it => (it.name, "attraction:" ++ it.identifier) := by
  induction l with
  | nil => rfl
  | cons a t ih =>
    have hl : leadsWith "attraction:" ("attraction:" ++ a.identifier) = true :=
      leadsWith_append_self "attraction:" a.identifier
    simpa [entryButtons, build_attractions_keyboard, hl]
      using congrArg (List.cons (a.name, "attraction:" ++ a.identifier)) ih

lemma backButtons_build (l : List Attraction) :
    backButtons (build_attractions_keyboard l)
      = [Button.callbackBtn "⬅️ Назад в меню" "menu:main"] := by
  induction l with
  | nil => rfl
  | cons a t ih =>
    have hne : ¬ (("attraction:" ++ a.identifier) = "menu:main") :=
      attraction_data_ne_menu_main a.identifier
    simpa [backButtons, build_attractions_keyboard, hne] using ih

/-- C5: the attraction-list keyboard holds exactly one per-entry action for
each catalog entry, labelled by the entry name and targeting
`attraction:identifier`, in catalog order, plus exactly one back-to-menu
action; rendering the list over a non-empty catalog ends in a render carrying
that keyboard, while an empty catalog degrades to the notice with no action
buttons. -/
theorem attractionList_render_spec (l : List Attraction) (env : Env)
    (stg : AttractionStorage) (st : ChatState) (cid : Nat) (fn : Option String) :
    (entryButtons (build_attractions_keyboard l)
      = l.map fun it => (it.name, "attraction:" ++ it.identifier))
    ∧ ((entryButtons (build_attractions_keyboard l)).length = l.length)
    ∧ ((backButtons (build_attractions_keyboard l)).length = 1)
    ∧ ((build_attractions_keyboard l).length = l.length + 1)
    ∧ (stg.all ≠ [] →
        (show_attractions env stg (commandUpdate cid fn) st).2.getLast?
          = some (Effect.replyText cid chooseText
              (some (build_attractions_keyboard stg.all))))
    ∧ (stg.all = [] →
        show_attractions env stg (commandUpdate cid fn) st
          = (st, [Effect.replyText cid emptyListText none])) := by
  refine ⟨entryButtons_build l, ?_, ?_, ?_, ?_, ?_⟩
  · rw [entryButtons_build l]
    simp
  · rw [backButtons_build l]
    rfl
  · simp [build_attractions_keyboard]
  · intro h
    have hne : stg.all.isEmpty = false := by
      cases hall : stg.all with
      | nil => exact absurd hall h
      | cons x xs => simp
    simp only [show_attractions, hne, Bool.false_eq_true, if_false]
    simp [commandUpdate, Update.hasCallbackMessage, Update.effectiveChat]
  · intro h
    simp [show_attractions, h, commandUpdate, Update.hasCallbackMessage]

/-- Witness for C5 with a one-entry catalog and the empty catalog. -/
theorem attractionList_render_spec_witness :
    ((mkStorage [attKremlin]).all ≠ []) ∧ ((mkStorage []).all = [])
    ∧ (show_attractions ⟨true, true, 42⟩ (mkStorage []) (commandUpdate 1 none) ⟨none⟩
        = (⟨none⟩, [Effect.replyText 1 emptyListText none]))
    ∧ ((show_attractions ⟨true, true, 42⟩ (mkStorage [attKremlin])
          (commandUpdate 1 none) ⟨none⟩).2.getLast?
        = some (Effect.replyText 1 chooseText
            (some (build_attractions_keyboard (mkStorage [attKremlin]).all)))) :=
  ⟨by decide, rfl,
   (attractionList_render_spec [] ⟨true, true, 42⟩ (mkStorage []) ⟨none⟩ 1 none).2.2.2.2.2 rfl,
   (attractionList_render_spec [] ⟨true, true, 42⟩ (mkStorage [attKremlin]) ⟨none⟩ 1 none).2.2.2.2.1
     (by decide)⟩

lemma afterFirstColon_attraction (s : String) :
    afterFirstColon ("attraction:" ++ s) = s := rfl

lemma afterFirstColon_menu (s : String) :
    afterFirstColon ("menu:" ++ s) = s := rfl

lemma leadsWith_menu_attraction (s : String) :
    leadsWith "menu:" ("attraction:" ++ s) = false := rfl

lemma leadsWith_attraction_self (s : String) :
    leadsWith "attraction:" ("attraction:" ++ s) = true := rfl

lemma leadsWith_menu_self (s : String) :
    leadsWith "menu:" ("menu:" ++ s) = true := rfl

/-- C4: an attraction action addressed to an identifier absent from the
catalog only acknowledges the press and renders the not-found notice: the
lookup miss is an ordinary `none` (never an exception), no photo is sent, and
the tracked photo slot of the chat is untouched. -/
theorem unknownAttraction_spec (env : Env) (storage : AttractionStorage)
    (st : ChatState) (cid : Nat) (fn : Option String) (idf : String)
    (h : storage.get idf = none) :
    step env storage st (.callbackPress cid fn ("attraction:" ++ idf))
      = (st, [Effect.answer, Effect.editText notFoundText none])
    ∧ (step env storage st (.callbackPress cid fn ("attraction:" ++ idf))).1 = st
    ∧ ((step env storage st (.callbackPress cid fn ("attraction:" ++ idf))).2.all
        (fun e => !isPhotoEff e)) = true
    ∧ ((step env storage st (.callbackPress cid fn ("attraction:" ++ idf))).2.all
        (fun e => !isDeleteEff e)) = true := by
  have hr : step env storage st (.callbackPress cid fn ("attraction:" ++ idf))
      = (st, [Effect.answer, Effect.editText notFoundText none]) := by
    simp [step, leadsWith_menu_attraction, leadsWith_attraction_self,
      attraction_details, callbackUpdate, afterFirstColon_attraction, h]
  refine ⟨hr, ?_, ?_, ?_⟩ <;> rw [hr] <;> rfl

/-- Witness for C4: the spec scenario `attraction:zzz` over the Kremlin
catalog. -/
theorem unknownAttraction_spec_witness :
    (mkStorage [attKremlin]).get "zzz" = none
    ∧ step ⟨true, true, 42⟩ (mkStorage [attKremlin]) ⟨some 5⟩
        (.callbackPress 1 none ("attraction:" ++ "zzz"))
      = (⟨some 5⟩, [Effect.answer, Effect.editText notFoundText none]) :=
  ⟨rfl, (unknownAttraction_spec ⟨true, true, 42⟩ (mkStorage [attKremlin])
    ⟨some 5⟩ 1 none "zzz" rfl).1⟩

/-- C10: a menu press whose suffix after the colon is none of the three known
actions is acknowledged and nothing else happens (no render, no delete
attempt, the slot untouched); a callback update with no payload returns
silently with no effect at all. -/
theorem unknownMenu_spec (env : Env) (storage : AttractionStorage)
    (st : ChatState) (cid : Nat) (fn : Option String) (s : String) :
    (s ≠ "main" → s ≠ "attractions" → s ≠ "help" →
      step env storage st (.callbackPress cid fn ("menu:" ++ s))
        = (st, [Effect.answer]))
    ∧ (∀ mc fn2, handle_menu env storage
        { messageChat := none, userFirstName := fn2,
          callback := some { data := none, messageChat := mc } } st = (st, [])) := by
  constructor
  · intro h1 h2 h3
    simp [step, leadsWith_menu_self, handle_menu, callbackUpdate,
      afterFirstColon_menu, h1, h2, h3]
  · intro mc fn2
    rfl

/-- Witness for C10 at the concrete press `menu:unknown`. -/
theorem unknownMenu_spec_witness :
    (("unknown" : String) ≠ "main" ∧ ("unknown" : String) ≠ "attractions"
      ∧ ("unknown" : String) ≠ "help")
    ∧ step ⟨true, true, 42⟩ (mkStorage [attKremlin]) ⟨some 5⟩
        (.callbackPress 1 none ("menu:" ++ "unknown"))
      = (⟨some 5⟩, [Effect.answer]) :=
  ⟨⟨by decide, by decide, by decide⟩,
   (unknownMenu_spec ⟨true, true, 42⟩ (mkStorage [attKremlin]) ⟨some 5⟩ 1 none
     "unknown").1 (by decide) (by decide) (by decide)⟩

lemma delete_state (env : Env) (cid : Nat) (st : ChatState) :
    (delete_previous_photo env cid st).1 = ⟨none⟩ := by
  unfold delete_previous_photo
  cases st.photoMessageId with
  | none => rfl
  | some m =>
    by_cases h : m = 0 <;> simp [h]

lemma delete_tracked (env : Env) (cid m : Nat) (st : ChatState)
    (h : st.photoMessageId = some m) (h0 : m ≠ 0) :
    delete_previous_photo env cid st
      = (⟨none⟩, [Effect.deleteAttempt cid m env.deleteOk]) := by
  unfold delete_previous_photo
  rw [h]
  simp [h0]

/-- C8: a transport failure of the photo delete is swallowed (the delete
attempt is recorded with its failing outcome and the following render of the
new screen still happens), an absent slot makes the cleanup a no-op rather
than an error, and in both cases the slot is cleared afterwards. -/
theorem deleteFailure_spec (env : Env) (storage : AttractionStorage)
    (st : ChatState) (cid m : Nat) (fn : Option String) :
    (st.photoMessageId = some m → m ≠ 0 → env.deleteOk = false →
      delete_previous_photo env cid st
        = (⟨none⟩, [Effect.deleteAttempt cid m false])
      ∧ step env storage st (.callbackPress cid fn ("menu:" ++ "main"))
        = (⟨none⟩, [Effect.answer, Effect.deleteAttempt cid m false,
            Effect.editText (mainMenuText (fn.getD ""))
              (some build_main_menu_keyboard)]))
    ∧ (st.photoMessageId = none →
        delete_previous_photo env cid st = (⟨none⟩, [])) := by
  constructor
  · intro hs h0 hd
    have hdel := delete_tracked env cid m st hs h0
    rw [hd] at hdel
    constructor
    · exact hdel
    · have l1 : leadsWith "menu:" "menu:main" = true := rfl
      have l2 : afterFirstColon "menu:main" = "main" := rfl
      have h2 : delete_previous_photo env cid (⟨none⟩ : ChatState) = (⟨none⟩, []) := rfl
      simp [step, l1, l2, handle_menu, callbackUpdate, hdel, h2,
        send_main_menu, Update.effectiveChat]
  · intro hs
    unfold delete_previous_photo
    rw [hs]

/-- Witness for C8: slot tracking message 5, the transport delete failing. -/
theorem deleteFailure_spec_witness :
    ((⟨some 5⟩ : ChatState).photoMessageId = some 5 ∧ (5 : Nat) ≠ 0
      ∧ (⟨false, true, 42⟩ : Env).deleteOk = false)
    ∧ step ⟨false, true, 42⟩ (mkStorage [attKremlin]) ⟨some 5⟩
        (.callbackPress 1 none ("menu:" ++ "main"))
      = (⟨none⟩, [Effect.answer, Effect.deleteAttempt 1 5 false,
          Effect.editText (mainMenuText "") (some build_main_menu_keyboard)]) :=
  ⟨⟨rfl, by decide, rfl⟩,
   ((deleteFailure_spec ⟨false, true, 42⟩ (mkStorage [attKremlin]) ⟨some 5⟩ 1 5
     none).1 rfl (by decide) rfl).2⟩

/-- C2 counterexample: with an empty catalog and a tracked photo, the
`/attractions` transition (a transition whose target is not AttractionDetail)
renders the degraded notice without performing any delete attempt and leaves
the slot pointing at the old photo, contradicting the claim for the
empty-catalog case. -/
theorem emptyListSkipsCleanup_cex :
    step ⟨true, true, 42⟩ (mkStorage []) ⟨some 5⟩ (.cmdAttractions 1 none)
      = (⟨some 5⟩, [Effect.replyText 1 emptyListText none])
    ∧ ((step ⟨true, true, 42⟩ (mkStorage []) ⟨some 5⟩
        (.cmdAttractions 1 none)).2.all (fun e => !isDeleteEff e)) = true
    ∧ ((step ⟨true, true, 42⟩ (mkStorage []) ⟨some 5⟩
        (.cmdAttractions 1 none)).2.any isRenderEff) = true := by
  refine ⟨rfl, rfl, rfl⟩

lemma dbr_pair (d r : Effect) (hd : isDeleteEff d = true)
    (hr : isRenderEff r = true) : delBeforeRender [d, r] :=
  ⟨[], d, [], r, [], rfl, hd, hr⟩

lemma dbr_triple (x d r : Effect) (hd : isDeleteEff d = true)
    (hr : isRenderEff r = true) : delBeforeRender [x, d, r] :=
  ⟨[x], d, [], r, [], rfl, hd, hr⟩

/-- C2 (amended): every transition whose target is not AttractionDetail —
main menu by command or button, help by command or button, attraction list by
command or button over a non-empty catalog — performs the best-effort delete
of the tracked ephemeral photo before the render of the new screen; when the
catalog is empty the AttractionList render degrades to the notice and returns
without any deletion attempt, the slot left unchanged. -/
theorem nonDetailTransitions_cleanup (env : Env) (stg : AttractionStorage)
    (st : ChatState) (cid m : Nat) (fn : Option String)
    (hs : st.photoMessageId = some m) (h0 : m ≠ 0) :
    delBeforeRender (step env stg st (.cmdStart cid fn)).2
    ∧ delBeforeRender (step env stg st (.cmdHelp cid fn)).2
    ∧ (stg.all ≠ [] →
        delBeforeRender (step env stg st (.cmdAttractions cid fn)).2)
    ∧ delBeforeRender (step env stg st (.callbackPress cid fn "menu:main")).2
    ∧ delBeforeRender (step env stg st (.callbackPress cid fn "menu:help")).2
    ∧ (stg.all ≠ [] →
        delBeforeRender (step env stg st
          (.callbackPress cid fn "menu:attractions")).2)
    ∧ (stg.all = [] →
        step env stg st (.cmdAttractions cid fn)
          = (st, [Effect.replyText cid emptyListText none])
        ∧ step env stg st (.callbackPress cid fn "menu:attractions")
          = (st, [Effect.answer, Effect.editText emptyListText none])) := by
  have hdel := delete_tracked env cid m st hs h0
  have h2 : delete_previous_photo env cid (⟨none⟩ : ChatState) = (⟨none⟩, []) := rfl
  refine ⟨?_, ?_, ?_, ?_, ?_, ?_, ?_⟩
  · have he : (step env stg st (.cmdStart cid fn)).2
        = [Effect.deleteAttempt cid m env.deleteOk,
           Effect.replyText cid (mainMenuText (fn.getD ""))
             (some build_main_menu_keyboard)] := by
      simp [step, start, send_main_menu, commandUpdate, Update.effectiveChat, hdel]
    rw [he]
    exact dbr_pair _ _ rfl rfl
  · have he : (step env stg st (.cmdHelp cid fn)).2
        = [Effect.deleteAttempt cid m env.deleteOk,
           Effect.replyText cid helpCommandText (some build_main_menu_keyboard)] := by
      simp [step, help_command, commandUpdate, Update.effectiveChat, hdel]
    rw [he]
    exact dbr_pair _ _ rfl rfl
  · intro hne
    have hne2 : stg.all.isEmpty = false := by
      cases hall : stg.all with
      | nil => exact absurd hall hne
      | cons x xs => simp
    have he : (step env stg st (.cmdAttractions cid fn)).2
        = [Effect.deleteAttempt cid m env.deleteOk,
           Effect.replyText cid chooseText
             (some (build_attractions_keyboard stg.all))] := by
      simp [step, show_attractions, hne2, commandUpdate,
        Update.hasCallbackMessage, Update.effectiveChat, hdel]
    rw [he]
    exact dbr_pair _ _ rfl rfl
  · have l1 : leadsWith "menu:" "menu:main" = true := rfl
    have l2 : afterFirstColon "menu:main" = "main" := rfl
    have he : (step env stg st (.callbackPress cid fn "menu:main")).2
        = [Effect.answer, Effect.deleteAttempt cid m env.deleteOk,
           Effect.editText (mainMenuText (fn.getD ""))
             (some build_main_menu_keyboard)] := by
      simp [step, l1, l2, handle_menu, callbackUpdate, hdel, h2,
        send_main_menu, Update.effectiveChat]
    rw [he]
    exact dbr_triple _ _ _ rfl rfl
  · have l1 : leadsWith "menu:" "menu:help" = true := rfl
    have l2 : afterFirstColon "menu:help" = "help" := rfl
    have he : (step env stg st (.callbackPress cid fn "menu:help")).2
        = [Effect.answer, Effect.deleteAttempt cid m env.deleteOk,
           Effect.editText menuHelpText (some build_main_menu_keyboard)] := by
      simp [step, l1, l2, handle_menu, callbackUpdate, hdel]
    rw [he]
    exact dbr_triple _ _ _ rfl rfl
  · intro hne
    have hne2 : stg.all.isEmpty = false := by
      cases hall : stg.all with
      | nil => exact absurd hall hne
      | cons x xs => simp
    have l1 : leadsWith "menu:" "menu:attractions" = true := rfl
    have l2 : afterFirstColon "menu:attractions" = "attractions" := rfl
    have he : (step env stg st (.callbackPress cid fn "menu:attractions")).2
        = [Effect.answer, Effect.deleteAttempt cid m env.deleteOk,
           Effect.editText chooseText
             (some (build_attractions_keyboard stg.all))] := by
      simp [step, l1, l2, handle_menu, callbackUpdate, show_attractions, hne2,
        Update.hasCallbackMessage, Update.effectiveChat, hdel]
    rw [he]
    exact dbr_triple _ _ _ rfl rfl
  · intro hempty
    have hne2 : stg.all.isEmpty = true := by
      rw [hempty]
      rfl
    have l1 : leadsWith "menu:" "menu:attractions" = true := rfl
    have l2 : afterFirstColon "menu:attractions" = "attractions" := rfl
    constructor
    · simp [step, show_attractions, hne2, commandUpdate,
        Update.hasCallbackMessage]
    · simp [step, l1, l2, handle_menu, callbackUpdate, show_attractions, hne2,
        Update.hasCallbackMessage]

/-- Witness for C2 (amended) over the Kremlin catalog with tracked photo 5. -/
theorem nonDetailTransitions_cleanup_witness :
    ((⟨some 5⟩ : ChatState).photoMessageId = some 5 ∧ (5 : Nat) ≠ 0
      ∧ (mkStorage [attKremlin]).all ≠ [])
    ∧ delBeforeRender (step ⟨true, true, 42⟩ (mkStorage [attKremlin]) ⟨some 5⟩
        (.cmdAttractions 1 none)).2
    ∧ delBeforeRender (step ⟨true, true, 42⟩ (mkStorage [attKremlin]) ⟨some 5⟩
        (.callbackPress 1 none "menu:main")).2 :=
  ⟨⟨rfl, by decide, by decide⟩,
   (nonDetailTransitions_cleanup ⟨true, true, 42⟩ (mkStorage [attKremlin])
     ⟨some 5⟩ 1 5 none rfl (by decide)).2.2.1 (by decide),
   (nonDetailTransitions_cleanup ⟨true, true, 42⟩ (mkStorage [attKremlin])
     ⟨some 5⟩ 1 5 none rfl (by decide)).2.2.2.1⟩

lemma slot_send_main_menu (env : Env) (u : Update) (v : Bool) (st : ChatState) :
    (send_main_menu env u v st).1 = st ∨ (send_main_menu env u v st).1 = ⟨none⟩ := by
  obtain ⟨mc, ufn, cb⟩ := u
  cases v <;> cases mc <;> rcases cb with _ | ⟨qd, qmc⟩ <;>
    first
      | (rcases qmc with _ | c2 <;>
          simp [send_main_menu, Update.effectiveChat, delete_state])
      | simp [send_main_menu, Update.effectiveChat, delete_state]

lemma slot_help_command (env : Env) (u : Update) (st : ChatState) :
    (help_command env u st).1 = st ∨ (help_command env u st).1 = ⟨none⟩ := by
  obtain ⟨mc, ufn, cb⟩ := u
  cases mc <;> simp [help_command, Update.effectiveChat, delete_state]

lemma slot_show_attractions (env : Env) (stg : AttractionStorage) (u : Update)
    (st : ChatState) :
    (show_attractions env stg u st).1 = st
    ∨ (show_attractions env stg u st).1 = ⟨none⟩ := by
  obtain ⟨mc, ufn, cb⟩ := u
  cases hE : stg.all.isEmpty <;> cases mc <;> rcases cb with _ | ⟨qd, qmc⟩ <;>
    first
      | (rcases qmc with _ | c2 <;>
          simp [show_attractions, hE, Update.effectiveChat,
            Update.hasCallbackMessage, delete_state])
      | simp [show_attractions, hE, Update.effectiveChat,
          Update.hasCallbackMessage, delete_state]

lemma slot_attraction_details (env : Env) (stg : AttractionStorage) (u : Update)
    (st : ChatState) :
    (attraction_details env stg u st).1 = st
    ∨ (attraction_details env stg u st).1 = ⟨none⟩
    ∨ (env.sendPhotoOk = true
        ∧ (attraction_details env stg u st).1 = ⟨some env.photoMsgId⟩
        ∧ ∃ cid ph cap, Effect.sendPhotoMsg cid ph cap (some env.photoMsgId)
            ∈ (attraction_details env stg u st).2) := by
  obtain ⟨mc, ufn, cb⟩ := u
  rcases cb with _ | ⟨qd, qmc⟩
  · exact Or.inl (by simp [attraction_details])
  · rcases qd with _ | d
    · exact Or.inl (by simp [attraction_details])
    · cases hg : stg.get (afterFirstColon d) with
      | none => exact Or.inl (by simp [attraction_details, hg])
      | some att =>
        rcases qmc with _ | cid
        · exact Or.inl (by simp [attraction_details, hg])
        · by_cases hok : env.sendPhotoOk = true
          · refine Or.inr (Or.inr ⟨hok, ?_, cid, att.image_url, att.name, ?_⟩) <;>
              simp [attraction_details, hg, hok]
          · exact Or.inr (Or.inl (by simp [attraction_details, hg, hok, delete_state]))

lemma slot_handle_menu (env : Env) (stg : AttractionStorage) (u : Update)
    (st : ChatState) :
    (handle_menu env stg u st).1 = st ∨ (handle_menu env stg u st).1 = ⟨none⟩ := by
  obtain ⟨mc, ufn, cb⟩ := u
  rcases cb with _ | ⟨qd, qmc⟩
  · exact Or.inl (by simp [handle_menu])
  · rcases qd with _ | d
    · exact Or.inl (by simp [handle_menu])
    · by_cases h1 : afterFirstColon d = "main"
      · rcases qmc with _ | cid
        · rcases slot_send_main_menu env ⟨mc, ufn, some ⟨some d, none⟩⟩ true st
            with h | h
          · exact Or.inl (by simp [handle_menu, h1]; exact h)
          · exact Or.inr (by simp [handle_menu, h1]; exact h)
        · rcases slot_send_main_menu env ⟨mc, ufn, some ⟨some d, some cid⟩⟩ true
            (⟨none⟩ : ChatState) with h | h
          · exact Or.inr (by simp [handle_menu, h1, delete_state]; exact h)
          · exact Or.inr (by simp [handle_menu, h1, delete_state]; exact h)
      · by_cases h2 : afterFirstColon d = "attractions"
        · rcases slot_show_attractions env stg ⟨mc, ufn, some ⟨some d, qmc⟩⟩ st
            with h | h
          · exact Or.inl (by simp [handle_menu, h1, h2]; exact h)
          · exact Or.inr (by simp [handle_menu, h1, h2]; exact h)
        · by_cases h3 : afterFirstColon d = "help"
          · rcases qmc with _ | cid
            · exact Or.inl (by simp [handle_menu, h1, h2, h3])
            · exact Or.inr (by simp [handle_menu, h1, h2, h3, delete_state])
          · exact Or.inl (by simp [handle_menu, h1, h2, h3])

/-- C1: after any processed action the per-chat slot — a single optional
reference by construction of the state — is either untouched, cleared, or
holds exactly the id of a photo whose send completed successfully during the
action (so a new send overwrites the slot and a failed send never assigns
it); and over any sequence of actions the state tracks at most one photo
reference. -/
theorem ephemeralSlot_spec (stg : AttractionStorage) (env : Env)
    (st : ChatState) (a : Action) :
    ((step env stg st a).1.photoMessageId = st.photoMessageId
      ∨ (step env stg st a).1.photoMessageId = none
      ∨ (env.sendPhotoOk = true
          ∧ (step env stg st a).1.photoMessageId = some env.photoMsgId
          ∧ ∃ cid ph cap, Effect.sendPhotoMsg cid ph cap (some env.photoMsgId)
              ∈ (step env stg st a).2))
    ∧ (∀ (acts : List (Env × Action)) (st0 : ChatState),
        (run stg acts st0).photoMessageId = none
        ∨ ∃ k, (run stg acts st0).photoMessageId = some k) := by
  constructor
  · have conv1 : ∀ r : ChatState × List Effect, r.1 = st →
        r.1.photoMessageId = st.photoMessageId := fun r h => by rw [h]
    have conv2 : ∀ r : ChatState × List Effect, r.1 = (⟨none⟩ : ChatState) →
        r.1.photoMessageId = none := fun r h => by rw [h]
    cases a with
    | cmdStart cid fn =>
      rcases slot_send_main_menu env (commandUpdate cid fn) false st with h | h
      · exact Or.inl (conv1 _ h)
      · exact Or.inr (Or.inl (conv2 _ h))
    | cmdHelp cid fn =>
      rcases slot_help_command env (commandUpdate cid fn) st with h | h
      · exact Or.inl (conv1 _ h)
      · exact Or.inr (Or.inl (conv2 _ h))
    | cmdAttractions cid fn =>
      rcases slot_show_attractions env stg (commandUpdate cid fn) st with h | h
      · exact Or.inl (conv1 _ h)
      · exact Or.inr (Or.inl (conv2 _ h))
    | callbackPress cid fn d =>
      simp only [step]
      by_cases hm : leadsWith "menu:" d = true
      · simp only [hm, if_true]
        rcases slot_handle_menu env stg (callbackUpdate cid fn d) st with h | h
        · exact Or.inl (conv1 _ h)
        · exact Or.inr (Or.inl (conv2 _ h))
      · by_cases ha : leadsWith "attraction:" d = true
        · simp only [hm, ha, Bool.false_eq_true, if_true, if_false]
          rcases slot_attraction_details env stg (callbackUpdate cid fn d) st
            with h | h | ⟨hok, h, es⟩
          · exact Or.inl (conv1 _ h)
          · exact Or.inr (Or.inl (conv2 _ h))
          · exact Or.inr (Or.inr ⟨hok, by rw [h], es⟩)
        · simp [hm, ha]
  · intro acts st0
    cases h : (run stg acts st0).photoMessageId with
    | none => exact Or.inl rfl
    | some k => exact Or.inr ⟨k, rfl⟩

/-- Success test of a loader step. -/
def isOkE {α : Type} : Except LoadError α → Bool
  | .ok _ => true
  | .error _ => false

lemma isOkE_true_iff {α : Type} (r : Except LoadError α) :
    isOkE r = true ↔ ∃ a, r = .ok a := by
  cases r <;> simp [isOkE]

lemma isOkE_false_iff {α : Type} (r : Except LoadError α) :
    isOkE r = false ↔ ∃ e, r = .error e := by
  cases r <;> simp [isOkE]

lemma getItem_ne_notFound (v : JsonVal) (k p : String) :
    getItem v k ≠ Except.error (.notFound p) := by
  unfold getItem
  split
  · split <;> simp
  · simp

lemma pyFloatRepr_ne_notFound (v : JsonVal) (p : String) :
    pyFloatRepr v ≠ Except.error (.notFound p) := by
  unfold pyFloatRepr
  split <;> (try split) <;> simp

lemma parseAttraction_ne_notFound (item : JsonVal) (p : String) :
    parseAttraction item ≠ Except.error (.notFound p) := by
  intro hc
  unfold parseAttraction at hc
  repeat' split at hc
  all_goals simp_all [getItem_ne_notFound, pyFloatRepr_ne_notFound]

lemma parseAttraction_error_validation {item : JsonVal} {e : LoadError}
    (h : parseAttraction item = .error e) : ∃ m, e = .validation m := by
  cases e with
  | notFound p => exact absurd h (parseAttraction_ne_notFound item p)
  | validation m => exact ⟨m, rfl⟩

lemma parseAttraction_anatomy {item : JsonVal} {a : Attraction}
    (h : parseAttraction item = .ok a) :
    ∃ idV nameV descV addrV c latV lat lonV lon imgV,
      getItem item "id" = .ok idV
      ∧ getItem item "name" = .ok nameV
      ∧ getItem item "description" = .ok descV
      ∧ getItem item "address" = .ok addrV
      ∧ getItem item "coordinates" = .ok c
      ∧ getItem c "lat" = .ok latV
      ∧ pyFloatRepr latV = .ok lat
      ∧ getItem c "lon" = .ok lonV
      ∧ pyFloatRepr lonV = .ok lon
      ∧ getItem item "image_url" = .ok imgV
      ∧ a = { identifier := jsonToStr idV, name := jsonToStr nameV,
              description := jsonToStr descV, address := jsonToStr addrV,
              latitude := lat, longitude := lon, image_url := jsonToStr imgV } := by
  unfold parseAttraction at h
  cases h1 : getItem item "id" with
  | error e => simp only [h1] at h; exact Except.noConfusion h
  | ok idV =>
  simp only [h1] at h
  cases h2 : getItem item "name" with
  | error e => simp only [h2] at h; exact Except.noConfusion h
  | ok nameV =>
  simp only [h2] at h
  cases h3 : getItem item "description" with
  | error e => simp only [h3] at h; exact Except.noConfusion h
  | ok descV =>
  simp only [h3] at h
  cases h4 : getItem item "address" with
  | error e => simp only [h4] at h; exact Except.noConfusion h
  | ok addrV =>
  simp only [h4] at h
  cases h5 : getItem item "coordinates" with
  | error e => simp only [h5] at h; exact Except.noConfusion h
  | ok c =>
  simp only [h5] at h
  cases h6 : getItem c "lat" with
  | error e => simp only [h6] at h; exact Except.noConfusion h
  | ok latV =>
  simp only [h6] at h
  cases h7 : pyFloatRepr latV with
  | error e => simp only [h7] at h; exact Except.noConfusion h
  | ok lat =>
  simp only [h7] at h
  cases h8 : getItem c "lon" with
  | error e => simp only [h8] at h; exact Except.noConfusion h
  | ok lonV =>
  simp only [h8] at h
  cases h9 : pyFloatRepr lonV with
  | error e => simp only [h9] at h; exact Except.noConfusion h
  | ok lon =>
  simp only [h9] at h
  cases h10 : getItem item "image_url" with
  | error e => simp only [h10] at h; exact Except.noConfusion h
  | ok imgV =>
  simp only [h10] at h
  exact ⟨idV, nameV, descV, addrV, c, latV, lat, lonV, lon, imgV,
    rfl, rfl, rfl, rfl, rfl, h6, h7, h8, h9, rfl, (Except.ok.inj h).symm⟩

lemma parseAll_error_validation {payload : List JsonVal} {e : LoadError}
    (h : parseAll payload = .error e) : ∃ m, e = .validation m := by
  induction payload with
  | nil => simp [parseAll] at h
  | cons item rest ih =>
    unfold parseAll at h
    cases h1 : parseAttraction item with
    | error e2 =>
      simp only [h1] at h
      exact (Except.error.inj h) ▸ parseAttraction_error_validation h1
    | ok a =>
      simp only [h1] at h
      cases h2 : parseAll rest with
      | error e3 =>
        simp only [h2] at h
        exact ih ((Except.error.inj h) ▸ h2)
      | ok as => simp only [h2] at h; exact Except.noConfusion h

lemma parseAll_error_of_bad {payload : List JsonVal} {item : JsonVal}
    (hm : item ∈ payload) (hbad : isOkE (parseAttraction item) = false) :
    ∃ e, parseAll payload = .error e := by
  induction payload with
  | nil => cases hm
  | cons x rest ih =>
    cases h1 : parseAttraction x with
    | error e => exact ⟨e, by simp [parseAll, h1]⟩
    | ok a =>
      rcases List.mem_cons.mp hm with rfl | hmem
      · rw [h1] at hbad
        simp [isOkE] at hbad
      · rcases ih hmem with ⟨e, he⟩
        exact ⟨e, by simp [parseAll, h1, he]⟩

lemma parseAll_ok_mem {payload : List JsonVal} {items : List Attraction}
    (h : parseAll payload = .ok items) :
    ∀ item ∈ payload, ∃ a, parseAttraction item = .ok a := by
  induction payload generalizing items with
  | nil => intro item hm; cases hm
  | cons x rest ih =>
    unfold parseAll at h
    cases h1 : parseAttraction x with
    | error e => simp only [h1] at h; exact Except.noConfusion h
    | ok a =>
      simp only [h1] at h
      cases h2 : parseAll rest with
      | error e => simp only [h2] at h; exact Except.noConfusion h
      | ok as =>
        simp only [h2] at h
        intro item hm
        rcases List.mem_cons.mp hm with rfl | hmem
        · exact ⟨a, h1⟩
        · exact ih h2 item hmem

lemma parseAll_length {payload : List JsonVal} {items : List Attraction}
    (h : parseAll payload = .ok items) : items.length = payload.length := by
  induction payload generalizing items with
  | nil => simp [parseAll] at h; simp [h]
  | cons x rest ih =>
    unfold parseAll at h
    cases h1 : parseAttraction x with
    | error e => simp only [h1] at h; exact Except.noConfusion h
    | ok a =>
      simp only [h1] at h
      cases h2 : parseAll rest with
      | error e => simp only [h2] at h; exact Except.noConfusion h
      | ok as =>
        simp only [h2] at h
        rw [← Except.ok.inj h]
        simp [ih h2]

/-- C3: loading fails with NotFoundError when the path does not exist; a
record missing one of the required fields, or whose coordinates do not
convert to a float, makes the whole load fail with a ValidationError; and a
catalog is only produced when every record parses (all-or-nothing). -/
theorem loader_spec (path : String) (payload : List JsonVal) :
    (from_json false path payload = Except.error (.notFound path))
    ∧ (∀ item, item ∈ payload → isOkE (parseAttraction item) = false →
        ∃ m, from_json true path payload = Except.error (.validation m))
    ∧ (∀ stg, from_json true path payload = .ok stg →
        ∀ item ∈ payload, ∃ a, parseAttraction item = .ok a)
    ∧ (∀ item k, k ∈ (["id", "name", "description", "address", "coordinates",
          "image_url"] : List String) → isOkE (getItem item k) = false →
        isOkE (parseAttraction item) = false)
    ∧ (∀ item c, getItem item "coordinates" = .ok c →
        (∀ v, getItem c "lat" = .ok v → isOkE (pyFloatRepr v) = false →
          isOkE (parseAttraction item) = false)
        ∧ (∀ v, getItem c "lon" = .ok v → isOkE (pyFloatRepr v) = false →
          isOkE (parseAttraction item) = false)) := by
  refine ⟨by simp [from_json], ?_, ?_, ?_, ?_⟩
  · intro item hm hbad
    rcases parseAll_error_of_bad hm hbad with ⟨e, he⟩
    rcases parseAll_error_validation he with ⟨m, rfl⟩
    exact ⟨m, by simp [from_json, he]⟩
  · intro stg h
    have h2 : (match parseAll payload with
        | .error e => Except.error e
        | .ok attractions => Except.ok (mkStorage attractions)) = .ok stg := by
      simpa [from_json] using h
    cases hp : parseAll payload with
    | error e => simp only [hp] at h2; exact Except.noConfusion h2
    | ok items => exact parseAll_ok_mem hp
  · intro item k hk hbad
    cases hr : parseAttraction item with
    | error e => rfl
    | ok a =>
      rcases parseAttraction_anatomy hr with
        ⟨idV, nameV, descV, addrV, c, latV, lat, lonV, lon, imgV,
         g1, g2, g3, g4, g5, g6, g7, g8, g9, g10, ga⟩
      simp only [List.mem_cons, List.not_mem_nil, or_false] at hk
      rcases hk with rfl | rfl | rfl | rfl | rfl | rfl
      · rw [g1] at hbad; simp [isOkE] at hbad
      · rw [g2] at hbad; simp [isOkE] at hbad
      · rw [g3] at hbad; simp [isOkE] at hbad
      · rw [g4] at hbad; simp [isOkE] at hbad
      · rw [g5] at hbad; simp [isOkE] at hbad
      · rw [g10] at hbad; simp [isOkE] at hbad
  · intro item c hc
    constructor
    · intro v hv hbadf
      cases hr : parseAttraction item with
      | error e => rfl
      | ok a =>
        rcases parseAttraction_anatomy hr with
          ⟨idV, nameV, descV, addrV, c2, latV, lat, lonV, lon, imgV,
           g1, g2, g3, g4, g5, g6, g7, g8, g9, g10, ga⟩
        have hcc : c = c2 := Except.ok.inj (hc.symm.trans g5)
        subst hcc
        have hvv : v = latV := Except.ok.inj (hv.symm.trans g6)
        subst hvv
        rw [g7] at hbadf
        simp [isOkE] at hbadf
    · intro v hv hbadf
      cases hr : parseAttraction item with
      | error e => rfl
      | ok a =>
        rcases parseAttraction_anatomy hr with
          ⟨idV, nameV, descV, addrV, c2, latV, lat, lonV, lon, imgV,
           g1, g2, g3, g4, g5, g6, g7, g8, g9, g10, ga⟩
        have hcc : c = c2 := Except.ok.inj (hc.symm.trans g5)
        subst hcc
        have hvv : v = lonV := Except.ok.inj (hv.symm.trans g8)
        subst hvv
        rw [g9] at hbadf
        simp [isOkE] at hbadf

/-- A well-formed payload record (spec scenario). -/
def goodItem : JsonVal :=
  .jobj [("id", .jstr "a"), ("name", .jstr "Kremlin"),
         ("description", .jstr "Old fortress"), ("address", .jstr "Torzhok"),
         ("coordinates", .jobj [("lat", .jnum "57.04"), ("lon", .jnum "34.96")]),
         ("image_url", .jstr "https://example.org/kremlin.jpg")]

/-- A record missing every required field but the identifier. -/
def badItemMissing : JsonVal := .jobj [("id", .jstr "b")]

/-- A record whose latitude is not numeric. -/
def badItemCoord : JsonVal :=
  .jobj [("id", .jstr "c"), ("name", .jstr "X"),
         ("description", .jstr "d"), ("address", .jstr "ad"),
         ("coordinates", .jobj [("lat", .jstr "abc"), ("lon", .jnum "1")]),
         ("image_url", .jstr "u")]

/-- Witness for C3 at concrete payloads: a missing path, a record with a
missing field and a record with non-numeric coordinates. -/
theorem loader_spec_witness :
    isOkE (parseAttraction badItemMissing) = false
    ∧ isOkE (parseAttraction badItemCoord) = false
    ∧ from_json false "data.json" [goodItem]
        = Except.error (.notFound "data.json")
    ∧ (∃ m, from_json true "data.json" [badItemMissing]
        = Except.error (.validation m))
    ∧ (∃ m, from_json true "data.json" [goodItem, badItemCoord]
        = Except.error (.validation m)) :=
  ⟨rfl, rfl, (loader_spec "data.json" [goodItem]).1,
   (loader_spec "data.json" [badItemMissing]).2.1 badItemMissing
     (List.mem_singleton.mpr rfl) rfl,
   (loader_spec "data.json" [goodItem, badItemCoord]).2.1 badItemCoord
     (by simp) rfl⟩

lemma insFun_pos (k : String) (v : Attraction) (p : String × Attraction)
    (h : p.1 = k) : (if p.1 = k then (k, v) else p) = (k, v) := if_pos h

lemma insFun_neg (k : String) (v : Attraction) (p : String × Attraction)
    (h : ¬ p.1 = k) : (if p.1 = k then (k, v) else p) = p := if_neg h

lemma lookup_map_self (d : List (String × Attraction)) (k : String) (v : Attraction)
    (h : d.any (fun p => p.1 = k) = true) :
    lookupDict (d.map (fun p => if p.1 = k then (k, v) else p)) k = some v := by
  induction d with
  | nil => simp at h
  | cons q rest ih =>
    obtain ⟨k1, v1⟩ := q
    by_cases hq : k1 = k
    · subst hq
      rw [List.map_cons, insFun_pos k1 v (k1, v1) rfl]
      simp [lookupDict]
    · have h2 : rest.any (fun p => p.1 = k) = true := by simpa [hq] using h
      rw [List.map_cons, insFun_neg k v (k1, v1) hq]
      simp [lookupDict, hq, ih h2]

lemma lookup_append_absent (d : List (String × Attraction)) (k : String) (v : Attraction)
    (h : d.any (fun p => p.1 = k) = false) :
    lookupDict (d ++ [(k, v)]) k = some v := by
  induction d with
  | nil => simp [lookupDict]
  | cons q rest ih =>
    obtain ⟨k1, v1⟩ := q
    simp only [List.any_cons, Bool.or_eq_false_iff, decide_eq_false_iff_not] at h
    simp [lookupDict, h.1, ih (by simpa using h.2)]

lemma lookup_map_other (d : List (String × Attraction)) (k : String) (v : Attraction)
    (k2 : String) (hne : k2 ≠ k) :
    lookupDict (d.map (fun p => if p.1 = k then (k, v) else p)) k2
      = lookupDict d k2 := by
  have hk2 : ¬ (k = k2) := fun hc => hne (Eq.symm hc)
  induction d with
  | nil => rfl
  | cons q rest ih =>
    obtain ⟨k1, v1⟩ := q
    by_cases hq : k1 = k
    · subst hq
      rw [List.map_cons, insFun_pos k1 v (k1, v1) rfl]
      simp [lookupDict, hk2, ih]
    · rw [List.map_cons, insFun_neg k v (k1, v1) hq]
      by_cases hq2 : k1 = k2 <;> simp [lookupDict, hq2, ih]

lemma lookup_append_other (d : List (String × Attraction)) (k : String) (v : Attraction)
    (k2 : String) (hne : k2 ≠ k) :
    lookupDict (d ++ [(k, v)]) k2 = lookupDict d k2 := by
  have hk2 : ¬ (k = k2) := fun hc => hne (Eq.symm hc)
  induction d with
  | nil => simp [lookupDict, hk2]
  | cons q rest ih =>
    obtain ⟨k1, v1⟩ := q
    by_cases hq : k1 = k2 <;> simp [lookupDict, hq, ih]

lemma lookupDict_dictInsert_self (d : List (String × Attraction)) (k : String)
    (v : Attraction) : lookupDict (dictInsert d k v) k = some v := by
  by_cases hp : d.any (fun p => p.1 = k) = true
  · simp only [dictInsert, hp, if_true]
    exact lookup_map_self d k v hp
  · have hp2 : d.any (fun p => p.1 = k) = false := Bool.eq_false_iff.mpr hp
    simp only [dictInsert, hp2, Bool.false_eq_true, if_false]
    exact lookup_append_absent d k v hp2

lemma lookupDict_dictInsert_other (d : List (String × Attraction)) (k : String)
    (v : Attraction) (k2 : String) (hne : k2 ≠ k) :
    lookupDict (dictInsert d k v) k2 = lookupDict d k2 := by
  by_cases hp : d.any (fun p => p.1 = k) = true
  · simp only [dictInsert, hp, if_true]
    exact lookup_map_other d k v k2 hne
  · have hp2 : d.any (fun p => p.1 = k) = false := Bool.eq_false_iff.mpr hp
    simp only [dictInsert, hp2, Bool.false_eq_true, if_false]
    exact lookup_append_other d k v k2 hne

lemma lookup_foldl (items : List Attraction) (k : String) :
    ∀ acc : List (String × Attraction),
    lookupDict (List.foldl (fun d item => dictInsert d item.identifier item) acc items) k
      = (match (items.filter (fun a => a.identifier = k)).getLast? with
         | some a => some a
         | none => lookupDict acc k) := by
  induction items with
  | nil => intro acc; simp
  | cons x rest ih =>
    intro acc
    simp only [List.foldl_cons]
    rw [ih (dictInsert acc x.identifier x)]
    by_cases hx : x.identifier = k
    · subst hx
      rcases hfr : rest.filter (fun a => a.identifier = x.identifier) with _ | ⟨y, ys⟩
      · simp [List.filter_cons, hfr, lookupDict_dictInsert_self]
      · cases hgy : (y :: ys).getLast? with
        | none =>
          rw [List.getLast?_eq_none_iff] at hgy
          exact List.noConfusion hgy
        | some a =>
          simp [List.filter_cons, hfr, List.getLast?_cons_cons, hgy]
    · have hke : k ≠ x.identifier := fun hc => hx (Eq.symm hc)
      simp [List.filter_cons, hx, lookupDict_dictInsert_other _ _ _ _ hke]

lemma mkStorage_get_last (items : List Attraction) (k : String) :
    (mkStorage items).get k
      = (items.filter (fun a => a.identifier = k)).getLast? := by
  show lookupDict (pyDict items) k = _
  unfold pyDict
  rw [lookup_foldl items k []]
  cases (items.filter (fun a => a.identifier = k)).getLast? <;> rfl

lemma pyDict_build (items : List Attraction) :
    ∀ acc : List (String × Attraction),
    (∀ a ∈ items, acc.any (fun p => p.1 = a.identifier) = false) →
    ((items.map fun a => a.identifier).Nodup) →
    List.foldl (fun d item => dictInsert d item.identifier item) acc items
      = acc ++ items.map (fun a => (a.identifier, a)) := by
  induction items with
  | nil => intro acc _ _; simp
  | cons x rest ih =>
    intro acc hab hnd
    have hx : acc.any (fun p => p.1 = x.identifier) = false :=
      hab x (List.mem_cons_self x rest)
    have hins : dictInsert acc x.identifier x = acc ++ [(x.identifier, x)] := by
      simp [dictInsert, hx]
    rw [List.map_cons] at hnd
    have hnd2 := List.nodup_cons.mp hnd
    have hrest : ∀ a ∈ rest,
        (acc ++ [(x.identifier, x)]).any (fun p => p.1 = a.identifier) = false := by
      intro a ha
      have h1 : acc.any (fun p => p.1 = a.identifier) = false :=
        hab a (List.mem_cons_of_mem x ha)
      have h2 : ¬ (x.identifier = a.identifier) := by
        intro he
        refine hnd2.1 ?_
        rw [he]
        exact List.mem_map_of_mem (fun b => b.identifier) ha
      simp [List.any_append, h1, h2]
    simp only [List.foldl_cons, hins]
    rw [ih (acc ++ [(x.identifier, x)]) hrest hnd2.2]
    simp

lemma mkStorage_all_nodup {items : List Attraction}
    (h : (items.map fun a => a.identifier).Nodup) :
    (mkStorage items).all = items := by
  show ((pyDict items).map fun p => p.2) = items
  unfold pyDict
  rw [pyDict_build items [] (fun a _ => rfl) h]
  simp only [List.nil_append, List.map_map]
  exact (List.map_congr_left fun a _ => rfl).trans (List.map_id items)

/-- C7: over a valid payload with pairwise-distinct identifiers, loading and
then listing returns exactly the parsed records — same count as the payload,
every identifier exactly once, in the payload's insertion order; `all()` is a
pure function of the storage, so repeated calls return the same sequence. -/
theorem loadAll_spec (path : String) (payload : List JsonVal)
    (items : List Attraction) (hp : parseAll payload = .ok items)
    (hnd : (items.map fun a => a.identifier).Nodup) :
    from_json true path payload = .ok (mkStorage items)
    ∧ (mkStorage items).all = items
    ∧ (mkStorage items).all.length = payload.length
    ∧ (mkStorage items).all.map (fun a => a.identifier)
        = items.map (fun a => a.identifier) := by
  have hall := mkStorage_all_nodup hnd
  refine ⟨by simp [from_json, hp], hall, ?_, by rw [hall]⟩
  rw [hall]
  exact parseAll_length hp

/-- Witness for C7 at the one-record Kremlin payload. -/
theorem loadAll_spec_witness :
    parseAll [goodItem] = .ok [attKremlin]
    ∧ (([attKremlin].map fun a => a.identifier).Nodup)
    ∧ from_json true "data.json" [goodItem] = .ok (mkStorage [attKremlin])
    ∧ (mkStorage [attKremlin]).all = [attKremlin]
    ∧ (mkStorage [attKremlin]).all.length = 1 :=
  ⟨rfl, by simp,
   (loadAll_spec "data.json" [goodItem] [attKremlin] rfl (by simp)).1,
   (loadAll_spec "data.json" [goodItem] [attKremlin] rfl (by simp)).2.1,
   (loadAll_spec "data.json" [goodItem] [attKremlin] rfl (by simp)).2.2.1⟩

lemma mem_dictInsert (d : List (String × Attraction)) (k : String) (v : Attraction)
    (p : String × Attraction) (h : p ∈ dictInsert d k v) :
    p = (k, v) ∨ p ∈ d := by
  by_cases hp : d.any (fun q => q.1 = k) = true
  · simp only [dictInsert, hp, if_true] at h
    rcases List.mem_map.mp h with ⟨q, hq, heq⟩
    by_cases hqk : q.1 = k
    · rw [insFun_pos k v q hqk] at heq
      exact Or.inl heq.symm
    · rw [insFun_neg k v q hqk] at heq
      exact Or.inr (heq ▸ hq)
  · have hp2 : d.any (fun q => q.1 = k) = false := Bool.eq_false_iff.mpr hp
    simp only [dictInsert, hp2, Bool.false_eq_true, if_false] at h
    rcases List.mem_append.mp h with h1 | h1
    · exact Or.inr h1
    · exact Or.inl (List.mem_singleton.mp h1)

lemma foldl_keyVal (items : List Attraction) :
    ∀ acc : List (String × Attraction), (∀ p ∈ acc, p.2.identifier = p.1) →
    ∀ p ∈ List.foldl (fun d it => dictInsert d it.identifier it) acc items,
      p.2.identifier = p.1 := by
  induction items with
  | nil => intro acc hacc p hp; exact hacc p hp
  | cons x rest ih =>
    intro acc hacc p hp
    refine ih (dictInsert acc x.identifier x) ?_ p hp
    intro q hq
    rcases mem_dictInsert acc x.identifier x q hq with rfl | hmem
    · rfl
    · exact hacc q hmem

lemma keys_map_replace (d : List (String × Attraction)) (k : String) (v : Attraction) :
    ((d.map (fun p => if p.1 = k then (k, v) else p)).map fun p => p.1)
      = d.map fun p => p.1 := by
  induction d with
  | nil => rfl
  | cons q rest ih =>
    by_cases hq : q.1 = k
    · rw [List.map_cons, insFun_pos k v q hq, List.map_cons, List.map_cons, ih, hq]
    · rw [List.map_cons, insFun_neg k v q hq, List.map_cons, List.map_cons, ih]

lemma keys_nodup_dictInsert (d : List (String × Attraction)) (k : String)
    (v : Attraction) (h : (d.map fun p => p.1).Nodup) :
    ((dictInsert d k v).map fun p => p.1).Nodup := by
  by_cases hp : d.any (fun q => q.1 = k) = true
  · simpa only [dictInsert, hp, if_true, keys_map_replace] using h
  · have hp2 : d.any (fun q => q.1 = k) = false := Bool.eq_false_iff.mpr hp
    have hnm : k ∉ d.map fun p => p.1 := by
      intro hc
      rcases List.mem_map.mp hc with ⟨q, hq, hqe⟩
      have : d.any (fun q => q.1 = k) = true :=
        List.any_eq_true.mpr ⟨q, hq, by simp [hqe]⟩
      rw [this] at hp2
      exact Bool.noConfusion hp2
    simp only [dictInsert, hp2, Bool.false_eq_true, if_false, List.map_append]
    simp [List.nodup_append, h, hnm]

lemma pyDict_keys_nodup (items : List Attraction) :
    ((pyDict items).map fun p => p.1).Nodup := by
  show ((List.foldl (fun d it => dictInsert d it.identifier it) [] items).map
    fun p => p.1).Nodup
  have hgen : ∀ acc : List (String × Attraction), ((acc.map fun p => p.1).Nodup) →
      ((List.foldl (fun d it => dictInsert d it.identifier it) acc items).map
        fun p => p.1).Nodup := by
    induction items with
    | nil => intro acc hacc; exact hacc
    | cons x rest ih =>
      intro acc hacc
      exact ih (dictInsert acc x.identifier x)
        (keys_nodup_dictInsert acc x.identifier x hacc)
  exact hgen [] (by simp)

lemma mem_foldl_dictInsert (items : List Attraction) :
    ∀ (acc : List (String × Attraction)) (p : String × Attraction),
    p ∈ List.foldl (fun d it => dictInsert d it.identifier it) acc items →
    p ∈ acc ∨ ∃ a ∈ items, p = (a.identifier, a) := by
  induction items with
  | nil => intro acc p hp; exact Or.inl hp
  | cons x rest ih =>
    intro acc p hp
    rcases ih (dictInsert acc x.identifier x) p hp with h0 | ⟨a, ha, rfl⟩
    · rcases mem_dictInsert acc x.identifier x p h0 with rfl | hmem
      · exact Or.inr ⟨x, List.mem_cons_self x rest, rfl⟩
      · exact Or.inl hmem
    · exact Or.inr ⟨a, List.mem_cons_of_mem x ha, rfl⟩

lemma mkStorage_ids_nodup (items : List Attraction) :
    (((mkStorage items).all).map fun a => a.identifier).Nodup := by
  have hkv := foldl_keyVal items [] (by intro p hp; cases hp)
  have heq : ((mkStorage items).all).map (fun a => a.identifier)
      = (pyDict items).map fun p => p.1 := by
    show ((pyDict items).map (fun p => p.2)).map (fun a => a.identifier) = _
    rw [List.map_map]
    exact List.map_congr_left (fun p hp => hkv p hp)
  rw [heq]
  exact pyDict_keys_nodup items

lemma mkStorage_length_lt (items : List Attraction)
    (hdup : ¬ ((items.map fun a => a.identifier).Nodup)) :
    (mkStorage items).all.length < items.length := by
  have hnd := mkStorage_ids_nodup items
  have hsub : ((mkStorage items).all.map fun a => a.identifier)
      ⊆ items.map fun a => a.identifier := by
    intro x hx
    rcases List.mem_map.mp hx with ⟨a, ha, rfl⟩
    rcases List.mem_map.mp ha with ⟨p, hp, rfl⟩
    rcases mem_foldl_dictInsert items [] p hp with h0 | ⟨b, hb, rfl⟩
    · cases h0
    · exact List.mem_map_of_mem (fun c => c.identifier) hb
  have hsp := List.Nodup.subperm hnd hsub
  rcases lt_or_eq_of_le hsp.length_le with hlt | heq
  · simpa using hlt
  · exfalso
    have hperm := hsp.perm_of_length_le (le_of_eq heq.symm)
    exact hdup (hperm.nodup hnd)

/-- C9: duplicated identifiers in the payload do not make the load fail; the
storage keeps exactly one entry per identifier, lookup returns the last
occurrence of that identifier in the payload, and when identifiers repeat the
listed catalog is strictly smaller than the payload. -/
theorem duplicateIds_spec (path : String) (payload : List JsonVal)
    (items : List Attraction) (hp : parseAll payload = .ok items) :
    from_json true path payload = .ok (mkStorage items)
    ∧ (((mkStorage items).all.map fun a => a.identifier).Nodup)
    ∧ (∀ k, (mkStorage items).get k
        = (items.filter (fun a => a.identifier = k)).getLast?)
    ∧ (¬ ((items.map fun a => a.identifier).Nodup) →
        (mkStorage items).all.length < payload.length) := by
  refine ⟨by simp [from_json, hp], mkStorage_ids_nodup items,
    fun k => mkStorage_get_last items k, ?_⟩
  intro hdup
  have hlt := mkStorage_length_lt items hdup
  rwa [parseAll_length hp] at hlt

/-- A record sharing the identifier of `goodItem` with different fields. -/
def dupItem : JsonVal :=
  .jobj [("id", .jstr "a"), ("name", .jstr "Monastery"),
         ("description", .jstr "Newer"), ("address", .jstr "Torzhok 2"),
         ("coordinates", .jobj [("lat", .jnum "57.1"), ("lon", .jnum "34.9")]),
         ("image_url", .jstr "https://example.org/monastery.jpg")]

/-- The attraction carried by `dupItem`. -/
def attDup : Attraction :=
  { identifier := "a", name := "Monastery", description := "Newer",
    address := "Torzhok 2", latitude := "57.1", longitude := "34.9",
    image_url := "https://example.org/monastery.jpg" }

/-- Witness for C9 at a two-record payload with one identifier. -/
theorem duplicateIds_spec_witness :
    parseAll [goodItem, dupItem] = .ok [attKremlin, attDup]
    ∧ (¬ (([attKremlin, attDup].map fun a => a.identifier).Nodup))
    ∧ from_json true "data.json" [goodItem, dupItem]
        = .ok (mkStorage [attKremlin, attDup])
    ∧ (mkStorage [attKremlin, attDup]).get "a" = some attDup
    ∧ (mkStorage [attKremlin, attDup]).all.length < 2 :=
  ⟨rfl, by decide,
   (duplicateIds_spec "data.json" [goodItem, dupItem] [attKremlin, attDup] rfl).1,
   by rw [(duplicateIds_spec "data.json" [goodItem, dupItem]
       [attKremlin, attDup] rfl).2.2.1 "a"]; rfl,
   (duplicateIds_spec "data.json" [goodItem, dupItem] [attKremlin, attDup]
     rfl).2.2.2 (by decide)⟩

end Digtor
